import Mathlib

/-!
Shallow embedding of the generation pipeline coordinator and deployment
supervisor of the MOB-Project repository (mother_of_bots/agents): the
standalone generation workers (code_generation_agent.py,
ui_generation_agent.py), the UI-need detector and standalone coordinator
(integration_example.py), the project assembler (integrator_agent.py) and
the deployer (deployer_agent.py).

Python strings are modelled as Lean `String` (a list of characters); the
Python operations used by the source (`in`, `find`, `rfind`, `strip`,
`lower`, slicing, truthiness) are defined below over `String.data`.
The opaque completion service is modelled as an oracle mapping the attempt
index to the response of the HTTP call made on that attempt.
-/

/-- Python truthiness of a string: non-empty. -/
def pyTruthy (s : String) : Bool :=
  !(s.data.isEmpty)

/-- Whether the character list `pat` is an initial segment of `l`
(the inner step of Python substring search). -/
def startsWithPat : List Char → List Char → Bool
  | [], _ => true
  | _ :: _, [] => false
  | p :: ps, c :: cs => p == c && startsWithPat ps cs

/-- Whether `pat` occurs contiguously in `l`: Python `pat in l`. -/
def occursIn (pat : List Char) : List Char → Bool
  | [] => startsWithPat pat []
  | c :: t => startsWithPat pat (c :: t) || occursIn pat t

/-- Python `needle in hay` on strings. -/
def strContains (hay needle : String) : Bool :=
  occursIn needle.data hay.data

/-- Index of the first occurrence of `pat`, if any. -/
def firstIdx (pat : List Char) : List Char → Option Nat
  | [] => if startsWithPat pat [] then some 0 else none
  | c :: t =>
    if startsWithPat pat (c :: t) then some 0
    else (firstIdx pat t).map (· + 1)

/-- Index of the last occurrence of `pat`, if any. -/
def lastIdx (pat : List Char) : List Char → Option Nat
  | [] => if startsWithPat pat [] then some 0 else none
  | c :: t =>
    match lastIdx pat t with
    | some i => some (i + 1)
    | none => if startsWithPat pat (c :: t) then some 0 else none

/-- Python `str.find`: first index, or -1 when absent. -/
def pyFind (pat l : List Char) : Int :=
  match firstIdx pat l with
  | some i => (i : Int)
  | none => -1

/-- Python `str.rfind`: last index, or -1 when absent. -/
def pyRFind (pat l : List Char) : Int :=
  match lastIdx pat l with
  | some i => (i : Int)
  | none => -1

/-- Python `str.strip` on a character list (whitespace off both ends). -/
def pyStripL (l : List Char) : List Char :=
  ((l.dropWhile Char.isWhitespace).reverse.dropWhile Char.isWhitespace).reverse

/-- Python `str.strip` on strings. -/
def pyStripS (s : String) : String :=
  String.mk (pyStripL s.data)

/-- Python `str.lower`, character by character (the source only lowers
ASCII keyword and library names). -/
def pyLowerS (s : String) : String :=
  String.mk (s.data.map Char.toLower)

/-- Python slice `l[a:b]` for `0 ≤ a, b` (the source's slices are guarded
to be in this range). -/
def pySlice (l : List Char) (a b : Int) : List Char :=
  (l.take b.toNat).drop a.toNat

/-! ## Generation workers (code_generation_agent.py, ui_generation_agent.py) -/

/-- Response of one HTTP call to the completion service (Ollama), as the
worker observes it: a 200 response with the generated text, a non-200
status, or a raised exception (transport error). -/
inductive Resp where
  | ok (text : String)
  | httpErr (status : Nat)
  | exn (msg : String)
deriving DecidableEq

/-- Classification of the string a standalone worker returns, following the
return sites of `generate_code` / `generate_ui_code`: an accepted attempt
(Success), the last attempt returned as best effort (Incomplete), or an
error message string (Failed). The Python function returns the carried
string itself, recovered by `resultText`. -/
inductive GenResult where
  | success (text : String)
  | incomplete (text : String)
  | failed (reason : String)
deriving DecidableEq

/-- The string the Python function actually returns. -/
def resultText : GenResult → String
  | .success t => t
  | .incomplete t => t
  | .failed r => r

/-- The fixed attempt schedule `[(0.1, 2000), (0.2, 2500), (0.05, 3000)]`
(temperature in hundredths to stay in exact arithmetic; the values are a
policy constant and do not influence any claim). -/
def attempt_schedule : List (Nat × Nat) :=
  [(10, 2000), (20, 2500), (5, 3000)]

/-- StandaloneCodeGenerationAgent._format_generated_code: extract the text
between a fenced block if present, else return the text unchanged.
The source first tries the "```python" fence, then a plain "```" fence;
each is used only when its `start`/`end` guard holds, else it falls
through. -/
def format_generated_code (code : String) : String :=
  let l := code.data
  let viaPython : Option (List Char) :=
    if occursIn ("```python").data l then
      let s : Int := pyFind ("```python").data l + 9
      let e : Int := pyRFind ("```").data l
      if s > 8 && e > s then some (pyStripL (pySlice l s e)) else none
    else none
  match viaPython with
  | some r => String.mk r
  | none =>
    let viaPlain : Option (List Char) :=
      if occursIn ("```").data l then
        let s : Int := pyFind ("```").data l + 3
        let e : Int := pyRFind ("```").data l
        if s > 2 && e > s then some (pyStripL (pySlice l s e)) else none
      else none
    match viaPlain with
    | some r => String.mk r
    | none => code

/-- One marker of StandaloneUIGenerationAgent._format_generated_code's
marker loop: extract using `marker` when it occurs and the guard holds. -/
def uiMarkerTry (l : List Char) (marker : String) : Option (List Char) :=
  if occursIn marker.data l then
    let s : Int := pyFind marker.data l + marker.data.length
    let e : Int := pyRFind ("```").data l
    if s > (marker.data.length : Int) - 1 && e > s then
      some (pyStripL (pySlice l s e))
    else none
  else none

/-- StandaloneUIGenerationAgent._format_generated_code: when one of the
jsx/javascript/tsx fences occurs, try the markers in order; else (or when
none extracts) fall through to the plain "```" fence, else return the text
unchanged. -/
def format_generated_ui (code : String) : String :=
  let l := code.data
  let viaMarkers : Option (List Char) :=
    if occursIn ("```jsx").data l || occursIn ("```javascript").data l
        || occursIn ("```tsx").data l then
      (["```jsx", "```javascript", "```tsx", "```react"].findSome?
        (uiMarkerTry l))
    else none
  match viaMarkers with
  | some r => String.mk r
  | none =>
    let viaPlain : Option (List Char) :=
      if occursIn ("```").data l then
        let s : Int := pyFind ("```").data l + 3
        let e : Int := pyRFind ("```").data l
        if s > 2 && e > s then some (pyStripL (pySlice l s e)) else none
      else none
    match viaPlain with
    | some r => String.mk r
    | none => code

/-- The backend worker's acceptance heuristic
(code_generation_agent.py line 275):
`len(formatted_code) > 100 and "import" in formatted_code and "def" in
formatted_code`. -/
def accept_backend (s : String) : Bool :=
  decide (100 < s.data.length) && strContains s "import" && strContains s "def"

/-- The UI worker's acceptance heuristic (ui_generation_agent.py line 280):
`len > 100 and "import" in f and ("function" in f or "const" in f)`. -/
def accept_ui (s : String) : Bool :=
  decide (100 < s.data.length) && strContains s "import"
    && (strContains s "function" || strContains s "const")

/-- Stripping then delimiter extraction, as applied by the backend worker
to a 200 response body. -/
def fmtB (raw : String) : String :=
  format_generated_code (pyStripS raw)

/-- Stripping then delimiter extraction, as applied by the UI worker. -/
def fmtU (raw : String) : String :=
  format_generated_ui (pyStripS raw)

/-- The retry loop of StandaloneCodeGenerationAgent.generate_code over the
remaining schedule entries, also counting the completion-service calls
made (one per loop iteration entered). `attempt == 2` is the source's
last-attempt test. -/
def generate_code_go (oracle : Nat → Resp) (attempt : Nat) :
    List (Nat × Nat) → GenResult × Nat
  | [] => (.failed "Failed to generate code after multiple attempts", 0)
  | _params :: rest =>
    match oracle attempt with
    | .ok raw =>
      let formatted := fmtB raw
      if accept_backend formatted then (.success formatted, 1)
      else if attempt == 2 then (.incomplete formatted, 1)
      else
        let r := generate_code_go oracle (attempt + 1) rest
        (r.1, r.2 + 1)
    | .httpErr status =>
      if attempt == 2 then
        (.failed ("Error generating code: HTTP " ++ toString status), 1)
      else
        let r := generate_code_go oracle (attempt + 1) rest
        (r.1, r.2 + 1)
    | .exn msg =>
      if attempt == 2 then (.failed ("Failed to generate code: " ++ msg), 1)
      else
        let r := generate_code_go oracle (attempt + 1) rest
        (r.1, r.2 + 1)

/-- StandaloneCodeGenerationAgent.generate_code: result and number of
completion-service calls. -/
def generate_code_run (oracle : Nat → Resp) : GenResult × Nat :=
  generate_code_go oracle 0 attempt_schedule

/-- The retry loop of StandaloneUIGenerationAgent.generate_ui_code,
identical policy, UI acceptance heuristic and error strings. -/
def generate_ui_go (oracle : Nat → Resp) (attempt : Nat) :
    List (Nat × Nat) → GenResult × Nat
  | [] => (.failed "Failed to generate UI code after multiple attempts", 0)
  | _params :: rest =>
    match oracle attempt with
    | .ok raw =>
      let formatted := fmtU raw
      if accept_ui formatted then (.success formatted, 1)
      else if attempt == 2 then (.incomplete formatted, 1)
      else
        let r := generate_ui_go oracle (attempt + 1) rest
        (r.1, r.2 + 1)
    | .httpErr status =>
      if attempt == 2 then
        (.failed ("Error generating UI code: HTTP " ++ toString status), 1)
      else
        let r := generate_ui_go oracle (attempt + 1) rest
        (r.1, r.2 + 1)
    | .exn msg =>
      if attempt == 2 then
        (.failed ("Failed to generate UI code: " ++ msg), 1)
      else
        let r := generate_ui_go oracle (attempt + 1) rest
        (r.1, r.2 + 1)

/-- StandaloneUIGenerationAgent.generate_ui_code: result and number of
completion-service calls. -/
def generate_ui_run (oracle : Nat → Resp) : GenResult × Nat :=
  generate_ui_go oracle 0 attempt_schedule

/-- Whether attempt `i` would be accepted by the backend worker: the call
returned 200 and the extracted text passes the acceptance heuristic. -/
def acceptedAt_backend (oracle : Nat → Resp) (i : Nat) : Bool :=
  match oracle i with
  | .ok raw => accept_backend (fmtB raw)
  | _ => false

/-- Whether attempt `i` would be accepted by the UI worker. -/
def acceptedAt_ui (oracle : Nat → Resp) (i : Nat) : Bool :=
  match oracle i with
  | .ok raw => accept_ui (fmtU raw)
  | _ => false

/-- The extracted text of attempt `i` (empty when the call failed). -/
def extractedAt_backend (oracle : Nat → Resp) (i : Nat) : String :=
  match oracle i with
  | .ok raw => fmtB raw
  | _ => ""

/-- The extracted text of attempt `i` for the UI worker. -/
def extractedAt_ui (oracle : Nat → Resp) (i : Nat) : String :=
  match oracle i with
  | .ok raw => fmtU raw
  | _ => ""

/-! ## UI-need detector and standalone coordinator (integration_example.py) -/

/-- A value of the requirements JSON: a scalar (rendered by `str`) or a
list of scalars. The source only inspects the string rendering; the model
carries the rendered strings. -/
inductive JsonVal where
  | s (v : String)
  | l (vs : List String)
deriving DecidableEq

/-- The fixed vocabulary of UI-indicating terms
(integration_example.py lines 584-586). -/
def ui_keywords : List String :=
  ["UI", "interface", "frontend", "react", "vue", "angular",
   "web page", "website", "responsive", "user interface",
   "dashboard", "display", "visualization"]

/-- The key names whose presence (lowered, exact match) marks UI need
(integration_example.py lines 589-591). -/
def ui_key_names : List String :=
  ["ui", "ui_components", "design", "design_preferences",
   "interface", "frontend", "display"]

/-- The lowered string renderings of one JSON value, as flattened by the
detector. -/
def flattenVal : JsonVal → List String
  | .s v => [pyLowerS v]
  | .l vs => vs.map pyLowerS

/-- First check of `_check_if_ui_needed_standalone`: some key, lowered, is
one of the UI key names. -/
def ui_keys_hit (json : List (String × JsonVal)) : Bool :=
  json.any (fun kv => ui_key_names.contains (pyLowerS kv.1))

/-- Second check: some UI keyword, lowered, occurs in the space-joined
lowered flattened values. -/
def ui_values_hit (json : List (String × JsonVal)) : Bool :=
  let flat := (json.map (fun kv => flattenVal kv.2)).flatten
  let joined := String.intercalate " " flat
  ui_keywords.any (fun kw => strContains joined (pyLowerS kw))

/-- Third check: the free text is non-empty (truthy) and some UI keyword,
lowered, occurs in the lowered text. -/
def ui_text_hit (text : String) : Bool :=
  pyTruthy text && ui_keywords.any (fun kw =>
    strContains (pyLowerS text) (pyLowerS kw))

/-- integration_example._check_if_ui_needed_standalone (the SPADE
behaviour's `_check_if_ui_needed` is the same text): keys, then values,
then free text. -/
def check_if_ui_needed_standalone
    (json : List (String × JsonVal)) (text : String) : Bool :=
  ui_keys_hit json || ui_values_hit json || ui_text_hit text

/-! ## Project assembler (integrator_agent.py, StandaloneIntegratorAgent) -/

/-- Baseline framework dependency lines always written to
backend/requirements.txt (integrator_agent.py line 284). -/
def baseline_requirements : List String :=
  ["fastapi>=0.100.0", "uvicorn>=0.23.0", "sqlalchemy>=2.0.0",
   "pydantic>=2.0.0", "python-dotenv>=1.0.0"]

/-- The conditional pinned lines appended after a case-insensitive
substring scan of the backend code (integrator_agent.py lines 286-295). -/
def known_lib_lines (backend_code : String) : List String :=
  let low := pyLowerS backend_code
  (if strContains low "pandas" then ["pandas>=2.0.0"] else [])
  ++ (if strContains low "numpy" then ["numpy>=1.24.0"] else [])
  ++ (if strContains low "scikit-learn" || strContains low "sklearn" then
        ["scikit-learn>=1.3.0"] else [])
  ++ (if strContains low "matplotlib" || strContains low "pyplot" then
        ["matplotlib>=3.7.0"] else [])
  ++ (if strContains low "requests" then ["requests>=2.31.0"] else [])

/-- All lines of the assembled backend dependency manifest, in write
order. -/
def backend_requirements_lines (backend_code : String) : List String :=
  baseline_requirements ++ known_lib_lines backend_code

/-- The in-memory view of the directory layout `integrate_project`
assembles. The constant scaffold files (index.html, package.json,
README.md, config.js) are always written; their boilerplate text is not
material to any claim, so the model records their presence. -/
structure ProjectLayout where
  backendAppPy : String
  backendRequirements : List String
  frontendAppJsx : String
  hasIndexHtml : Bool
  hasPackageJson : Bool
  hasReadme : Bool
  hasConfigJs : Bool
deriving DecidableEq

/-- The layout the success path of `integrate_project` produces. -/
def mkProjectLayout (backend_code ui_code : String) : ProjectLayout where
  backendAppPy := backend_code
  backendRequirements := backend_requirements_lines backend_code
  frontendAppJsx := ui_code
  hasIndexHtml := true
  hasPackageJson := true
  hasReadme := true
  hasConfigJs := true

/-- StandaloneIntegratorAgent.integrate_project: `if not backend_code or
not ui_code: return None`, else write the project and return its
directory (here: the layout). The unused `requirements` parameter of the
source is omitted. -/
def integrate_project (backend_code ui_code : String) : Option ProjectLayout :=
  if !(pyTruthy backend_code) || !(pyTruthy ui_code) then none
  else some (mkProjectLayout backend_code ui_code)

/-! ## Standalone coordinator (integration_example.run_standalone) -/

/-- What one standalone pipeline run did after generation: whether the
assembler was invoked, the layout it returned, and whether the layout was
handed to the deployer (`if project_dir: ... deploy_project(project_dir)`). -/
structure RunOutcome where
  needs_ui : Bool
  generated_code : String
  generated_ui : Option String
  integratorInvoked : Bool
  layout : Option ProjectLayout
  deployerInvoked : Bool
deriving DecidableEq

/-- integration_example.run_standalone, steps 2 and 5-7: decide
`needs_ui`, run the workers (UI only when needed), then
`if generated_code and (not needs_ui or generated_ui)` invoke
`integrate_project(generated_code, generated_ui or "", req_json)` and,
when it returned a directory, deploy it. The oracles stand for the
completion service's responses to the backend and UI workers. -/
def run_standalone_model (json : List (String × JsonVal)) (text : String)
    (backendOracle uiOracle : Nat → Resp) : RunOutcome :=
  let needs_ui := check_if_ui_needed_standalone json text
  let code := resultText (generate_code_run backendOracle).1
  let ui : Option String :=
    if needs_ui then some (resultText (generate_ui_run uiOracle).1) else none
  if pyTruthy code && (!needs_ui || pyTruthy (ui.getD "")) then
    let layout := integrate_project code (ui.getD "")
    { needs_ui := needs_ui, generated_code := code, generated_ui := ui,
      integratorInvoked := true, layout := layout,
      deployerInvoked := layout.isSome }
  else
    { needs_ui := needs_ui, generated_code := code, generated_ui := ui,
      integratorInvoked := false, layout := none, deployerInvoked := false }

/-! ## Deployer (deployer_agent.py, StandaloneDeployerAgent) -/

/-- The observable actions of one `deploy_project` call, in order. -/
inductive DeployEvent where
  | stopBackend
  | stopFrontend
  | reclaimPorts
  | createRequirementsTxt
  | createIndexHtml
  | startBackend
  | startFrontend
deriving DecidableEq

/-- A child process handle held by the deployer; `running = false` means
the process has already exited (poll() would be non-None). -/
structure ProcHandle where
  running : Bool
deriving DecidableEq

/-- The deployer's mutable process state (self.backend_proc,
self.frontend_proc). -/
structure DeployerState where
  backendProc : Option ProcHandle
  frontendProc : Option ProcHandle
deriving DecidableEq

/-- The dict `deploy_project` returns: status success with the two fixed
endpoints, or status error with a message. The model's messages carry the
fixed message text plus the captured stderr; the source also interpolates
filesystem paths, which the model does not carry. -/
inductive DeployResult where
  | success (backend_url frontend_url : String)
  | error (message : String)
deriving DecidableEq

/-- Result, final process state and event trace of one `deploy_project`
call. -/
structure DeployOutcome where
  result : DeployResult
  state : DeployerState
  events : List DeployEvent
deriving DecidableEq

/-- The filesystem and process-behaviour environment one `deploy_project`
call runs against: which paths exist, and whether each launched service
exits during its settle period (poll() non-None), with its captured
stderr. -/
structure DeployEnv where
  projectExists : Bool
  backendDirExists : Bool
  frontendDirExists : Bool
  backendAppExists : Bool
  requirementsTxtExists : Bool
  frontendIndexExists : Bool
  frontendAppJsxExists : Bool
  backendEarlyExit : Bool
  frontendEarlyExit : Bool
  backendStderr : String
  frontendStderr : String
deriving DecidableEq

/-- Python `stderr[:500]`. -/
def pyTake500 (s : String) : String :=
  String.mk (s.data.take 500)

/-- StandaloneDeployerAgent._stop_current_services: terminate (and on
timeout kill) whichever of the two processes is held, clear both handles,
then always reclaim ports 8000 and 3000. -/
def stop_current_services (st : DeployerState) :
    DeployerState × List DeployEvent :=
  ({ backendProc := none, frontendProc := none },
    (if st.backendProc.isSome then [DeployEvent.stopBackend] else [])
    ++ (if st.frontendProc.isSome then [DeployEvent.stopFrontend] else [])
    ++ [DeployEvent.reclaimPorts])

/-- Whether a deploy result is the error dict. -/
def isErrorResult : DeployResult → Bool
  | .error _ => true
  | .success _ _ => false

/-- StandaloneDeployerAgent.deploy_project: existence check, stop phase,
directory and app.py checks, file-stability wait (a pure bounded wait, no
state effect), creation of missing requirements.txt / index.html, then
launch backend, settle, poll; launch frontend, settle, poll. A poll that
reports an exited process returns the error dict at once — nothing started
earlier in the call is stopped on that path. -/
def deploy_project_model (env : DeployEnv) (st : DeployerState) :
    DeployOutcome :=
  if !env.projectExists then
    { result := .error "Project directory does not exist",
      state := st, events := [] }
  else
    let stopped := stop_current_services st
    let st1 := stopped.1
    let ev1 := stopped.2
    if !env.backendDirExists then
      { result := .error "Backend directory not found",
        state := st1, events := ev1 }
    else if !env.frontendDirExists then
      { result := .error "Frontend directory not found",
        state := st1, events := ev1 }
    else if !env.backendAppExists then
      { result := .error "Backend app.py not found",
        state := st1, events := ev1 }
    else
      let ev2 := ev1 ++ (if !env.requirementsTxtExists then
        [DeployEvent.createRequirementsTxt] else [])
      let ev3 := ev2 ++ (if !env.frontendIndexExists
          && env.frontendAppJsxExists then
        [DeployEvent.createIndexHtml] else [])
      let st2 : DeployerState :=
        { st1 with backendProc := some ⟨!env.backendEarlyExit⟩ }
      let ev4 := ev3 ++ [DeployEvent.startBackend]
      if env.backendEarlyExit then
        { result := .error ("Backend server failed to start: "
            ++ pyTake500 env.backendStderr),
          state := st2, events := ev4 }
      else
        let st3 : DeployerState :=
          { st2 with frontendProc := some ⟨!env.frontendEarlyExit⟩ }
        let ev5 := ev4 ++ [DeployEvent.startFrontend]
        if env.frontendEarlyExit then
          { result := .error ("Frontend server failed to start: "
              ++ pyTake500 env.frontendStderr),
            state := st3, events := ev5 }
        else
          { result := .success "http://localhost:8000" "http://localhost:3000",
            state := st3, events := ev5 }

/-! ## Concrete sample inputs used by witnesses and counterexamples -/

/-- A response body the backend worker accepts: longer than 100 characters
and containing both marker tokens. -/
def sampleBackendText : String :=
  "import os and def handler " ++ String.mk (List.replicate 100 'a')

/-- A response body the UI worker accepts. -/
def sampleUiText : String :=
  "import React and function App " ++ String.mk (List.replicate 100 'a')

/-- The environment of a deploy call where every check passes, the backend
survives its settle period and the frontend exits during its own. -/
def envFrontendDies : DeployEnv where
  projectExists := true
  backendDirExists := true
  frontendDirExists := true
  backendAppExists := true
  requirementsTxtExists := true
  frontendIndexExists := true
  frontendAppJsxExists := true
  backendEarlyExit := false
  frontendEarlyExit := true
  backendStderr := ""
  frontendStderr := "Address already in use"

/-- A layout directory with a frontend directory but no frontend artifact
(no App.jsx, no index.html); both services start fine. -/
def envNoUiArtifact : DeployEnv where
  projectExists := true
  backendDirExists := true
  frontendDirExists := true
  backendAppExists := true
  requirementsTxtExists := true
  frontendIndexExists := false
  frontendAppJsxExists := false
  backendEarlyExit := false
  frontendEarlyExit := false
  backendStderr := ""
  frontendStderr := ""

/-- A backend-only layout: no frontend directory at all. -/
def envBackendOnly : DeployEnv where
  projectExists := true
  backendDirExists := true
  frontendDirExists := false
  backendAppExists := true
  requirementsTxtExists := true
  frontendIndexExists := false
  frontendAppJsxExists := false
  backendEarlyExit := false
  frontendEarlyExit := false
  backendStderr := ""
  frontendStderr := ""

/-- The deployer's state before a first deploy call: no processes held. -/
def freshDeployerState : DeployerState where
  backendProc := none
  frontendProc := none

/-! ## Helper lemmas -/

theorem startsWithPat_append {p h : List Char} (e : List Char)
    (hp : startsWithPat p h = true) : startsWithPat p (h ++ e) = true := by
  induction p generalizing h with
  | nil => simp [startsWithPat]
  | cons x xs ih =>
    cases h with
    | nil => simp [startsWithPat] at hp
    | cons c cs =>
      simp only [startsWithPat, Bool.and_eq_true] at hp ⊢
      exact ⟨hp.1, ih hp.2⟩

theorem occursIn_nil_pat (l : List Char) : occursIn [] l = true := by
  cases l <;> simp [occursIn, startsWithPat]

theorem occursIn_append {p h : List Char} (e : List Char)
    (hp : occursIn p h = true) : occursIn p (h ++ e) = true := by
  induction h with
  | nil =>
    cases p with
    | nil => simpa using occursIn_nil_pat e
    | cons x xs => simp [occursIn, startsWithPat] at hp
  | cons c cs ih =>
    simp only [occursIn, Bool.or_eq_true] at hp
    rcases hp with hp | hp
    · have := startsWithPat_append (h := c :: cs) e hp
      simp only [List.cons_append, occursIn, Bool.or_eq_true]
      exact Or.inl (by simpa using this)
    · simp only [List.cons_append, occursIn, Bool.or_eq_true]
      exact Or.inr (ih hp)

theorem strContains_append {h n : String} (e : String)
    (hc : strContains h n = true) : strContains (h ++ e) n = true := by
  simp only [strContains, String.data_append] at hc ⊢
  exact occursIn_append e.data hc

theorem pyTruthy_append_left {s : String} (t : String)
    (hs : pyTruthy s = true) : pyTruthy (s ++ t) = true := by
  simp only [pyTruthy, String.data_append, Bool.not_eq_true'] at hs ⊢
  cases hd : s.data with
  | nil => simp [hd, List.isEmpty] at hs
  | cons c cs => simp [hd, List.isEmpty]

theorem pyLowerS_append (s t : String) :
    pyLowerS (s ++ t) = pyLowerS s ++ pyLowerS t := by
  apply String.ext
  simp [pyLowerS, String.data_append]

theorem gen_code_step_accept (o : Nat → Resp) (a : Nat) (p : Nat × Nat)
    (rest : List (Nat × Nat)) (raw : String) (h : o a = .ok raw)
    (ha : accept_backend (fmtB raw) = true) :
    generate_code_go o a (p :: rest) = (.success (fmtB raw), 1) := by
  simp [generate_code_go, h, ha]

theorem gen_code_step_continue (o : Nat → Resp) (a : Nat) (p : Nat × Nat)
    (rest : List (Nat × Nat)) (hn : acceptedAt_backend o a = false)
    (h2 : (a == 2) = false) :
    generate_code_go o a (p :: rest) =
      ((generate_code_go o (a + 1) rest).1,
        (generate_code_go o (a + 1) rest).2 + 1) := by
  cases ho : o a with
  | ok raw =>
    have hn2 : accept_backend (fmtB raw) = false := by
      simpa [acceptedAt_backend, ho] using hn
    simp [generate_code_go, ho, hn2, h2]
  | httpErr st => simp [generate_code_go, ho, h2]
  | exn msg => simp [generate_code_go, ho, h2]

theorem gen_code_step_last_reject (o : Nat → Resp) (p : Nat × Nat)
    (rest : List (Nat × Nat)) (raw : String) (h : o 2 = .ok raw)
    (ha : accept_backend (fmtB raw) = false) :
    generate_code_go o 2 (p :: rest) = (.incomplete (fmtB raw), 1) := by
  simp [generate_code_go, h, ha]

theorem gen_code_step_last_http (o : Nat → Resp) (p : Nat × Nat)
    (rest : List (Nat × Nat)) (st : Nat) (h : o 2 = .httpErr st) :
    generate_code_go o 2 (p :: rest) =
      (.failed ("Error generating code: HTTP " ++ toString st), 1) := by
  simp [generate_code_go, h]

theorem gen_code_step_last_exn (o : Nat → Resp) (p : Nat × Nat)
    (rest : List (Nat × Nat)) (msg : String) (h : o 2 = .exn msg) :
    generate_code_go o 2 (p :: rest) =
      (.failed ("Failed to generate code: " ++ msg), 1) := by
  simp [generate_code_go, h]

theorem gen_ui_step_accept (o : Nat → Resp) (a : Nat) (p : Nat × Nat)
    (rest : List (Nat × Nat)) (raw : String) (h : o a = .ok raw)
    (ha : accept_ui (fmtU raw) = true) :
    generate_ui_go o a (p :: rest) = (.success (fmtU raw), 1) := by
  simp [generate_ui_go, h, ha]

theorem gen_ui_step_continue (o : Nat → Resp) (a : Nat) (p : Nat × Nat)
    (rest : List (Nat × Nat)) (hn : acceptedAt_ui o a = false)
    (h2 : (a == 2) = false) :
    generate_ui_go o a (p :: rest) =
      ((generate_ui_go o (a + 1) rest).1,
        (generate_ui_go o (a + 1) rest).2 + 1) := by
  cases ho : o a with
  | ok raw =>
    have hn2 : accept_ui (fmtU raw) = false := by
      simpa [acceptedAt_ui, ho] using hn
    simp [generate_ui_go, ho, hn2, h2]
  | httpErr st => simp [generate_ui_go, ho, h2]
  | exn msg => simp [generate_ui_go, ho, h2]

theorem gen_ui_step_last_reject (o : Nat → Resp) (p : Nat × Nat)
    (rest : List (Nat × Nat)) (raw : String) (h : o 2 = .ok raw)
    (ha : accept_ui (fmtU raw) = false) :
    generate_ui_go o 2 (p :: rest) = (.incomplete (fmtU raw), 1) := by
  simp [generate_ui_go, h, ha]

theorem gen_code_go_calls_le (o : Nat → Resp) :
    ∀ (l : List (Nat × Nat)) (a : Nat),
      (generate_code_go o a l).2 ≤ l.length := by
  intro l
  induction l with
  | nil => intro a; simp [generate_code_go]
  | cons p rest ih =>
    intro a
    cases ho : o a with
    | ok raw =>
      by_cases hacc : accept_backend (fmtB raw) = true
      · simp [generate_code_go, ho, hacc]
      · rw [Bool.not_eq_true] at hacc
        by_cases h2 : (a == 2) = true
        · simp [generate_code_go, ho, hacc, h2]
        · rw [Bool.not_eq_true] at h2
          simp only [generate_code_go, ho, hacc, h2]
          simpa using Nat.add_le_add_right (ih (a + 1)) 1
    | httpErr st =>
      by_cases h2 : (a == 2) = true
      · simp [generate_code_go, ho, h2]
      · rw [Bool.not_eq_true] at h2
        simp only [generate_code_go, ho, h2]
        simpa using Nat.add_le_add_right (ih (a + 1)) 1
    | exn msg =>
      by_cases h2 : (a == 2) = true
      · simp [generate_code_go, ho, h2]
      · rw [Bool.not_eq_true] at h2
        simp only [generate_code_go, ho, h2]
        simpa using Nat.add_le_add_right (ih (a + 1)) 1

theorem gen_ui_go_calls_le (o : Nat → Resp) :
    ∀ (l : List (Nat × Nat)) (a : Nat),
      (generate_ui_go o a l).2 ≤ l.length := by
  intro l
  induction l with
  | nil => intro a; simp [generate_ui_go]
  | cons p rest ih =>
    intro a
    cases ho : o a with
    | ok raw =>
      by_cases hacc : accept_ui (fmtU raw) = true
      · simp [generate_ui_go, ho, hacc]
      · rw [Bool.not_eq_true] at hacc
        by_cases h2 : (a == 2) = true
        · simp [generate_ui_go, ho, hacc, h2]
        · rw [Bool.not_eq_true] at h2
          simp only [generate_ui_go, ho, hacc, h2]
          simpa using Nat.add_le_add_right (ih (a + 1)) 1
    | httpErr st =>
      by_cases h2 : (a == 2) = true
      · simp [generate_ui_go, ho, h2]
      · rw [Bool.not_eq_true] at h2
        simp only [generate_ui_go, ho, h2]
        simpa using Nat.add_le_add_right (ih (a + 1)) 1
    | exn msg =>
      by_cases h2 : (a == 2) = true
      · simp [generate_ui_go, ho, h2]
      · rw [Bool.not_eq_true] at h2
        simp only [generate_ui_go, ho, h2]
        simpa using Nat.add_le_add_right (ih (a + 1)) 1

theorem gen_code_go_failed_truthy (o : Nat → Resp) :
    ∀ (l : List (Nat × Nat)) (a : Nat) (r : String),
      (generate_code_go o a l).1 = .failed r → pyTruthy r = true := by
  intro l
  induction l with
  | nil =>
    intro a r h
    simp only [generate_code_go, GenResult.failed.injEq] at h
    rw [← h]; decide
  | cons p rest ih =>
    intro a r h
    cases ho : o a with
    | ok raw =>
      by_cases hacc : accept_backend (fmtB raw) = true
      · simp [generate_code_go, ho, hacc] at h
      · rw [Bool.not_eq_true] at hacc
        by_cases h2 : (a == 2) = true
        · simp [generate_code_go, ho, hacc, h2] at h
        · rw [Bool.not_eq_true] at h2
          simp only [generate_code_go, ho, hacc, h2] at h
          exact ih (a + 1) r h
    | httpErr st =>
      by_cases h2 : (a == 2) = true
      · simp only [generate_code_go, ho, h2, if_true,
          GenResult.failed.injEq] at h
        rw [← h]
        exact pyTruthy_append_left _ (by decide)
      · rw [Bool.not_eq_true] at h2
        simp only [generate_code_go, ho, h2] at h
        exact ih (a + 1) r h
    | exn msg =>
      by_cases h2 : (a == 2) = true
      · simp only [generate_code_go, ho, h2, if_true,
          GenResult.failed.injEq] at h
        rw [← h]
        exact pyTruthy_append_left _ (by decide)
      · rw [Bool.not_eq_true] at h2
        simp only [generate_code_go, ho, h2] at h
        exact ih (a + 1) r h

theorem acceptedAt_backend_true {o : Nat → Resp} {i : Nat}
    (h : acceptedAt_backend o i = true) :
    ∃ raw, o i = .ok raw ∧ accept_backend (fmtB raw) = true := by
  unfold acceptedAt_backend at h
  cases ho : o i with
  | ok raw => rw [ho] at h; exact ⟨raw, rfl, by simpa using h⟩
  | httpErr st => rw [ho] at h; simp at h
  | exn m => rw [ho] at h; simp at h

theorem acceptedAt_ui_true {o : Nat → Resp} {i : Nat}
    (h : acceptedAt_ui o i = true) :
    ∃ raw, o i = .ok raw ∧ accept_ui (fmtU raw) = true := by
  unfold acceptedAt_ui at h
  cases ho : o i with
  | ok raw => rw [ho] at h; exact ⟨raw, rfl, by simpa using h⟩
  | httpErr st => rw [ho] at h; simp at h
  | exn m => rw [ho] at h; simp at h

/-- C7: for every generation request and every sequence of
completion-service responses, each worker issues at most 3
completion-service calls, and as soon as an attempt's output passes the
acceptance heuristic the worker returns Success with that attempt's
extracted text at once — exactly the attempts before it were issued and no
further ones. -/
theorem C7_at_most_three_attempts_and_immediate_return (o : Nat → Resp) :
    ((generate_code_run o).2 ≤ 3 ∧ (generate_ui_run o).2 ≤ 3)
    ∧ (∀ i : Nat, i < 3 →
        (∀ j : Nat, j < i → acceptedAt_backend o j = false) →
        acceptedAt_backend o i = true →
        (generate_code_run o).1 = .success (extractedAt_backend o i)
          ∧ (generate_code_run o).2 = i + 1)
    ∧ (∀ i : Nat, i < 3 →
        (∀ j : Nat, j < i → acceptedAt_ui o j = false) →
        acceptedAt_ui o i = true →
        (generate_ui_run o).1 = .success (extractedAt_ui o i)
          ∧ (generate_ui_run o).2 = i + 1) := by
  refine ⟨⟨?_, ?_⟩, ?_, ?_⟩
  · simpa [attempt_schedule] using gen_code_go_calls_le o attempt_schedule 0
  · simpa [attempt_schedule] using gen_ui_go_calls_le o attempt_schedule 0
  · intro i hi hprev hacc
    interval_cases i
    · obtain ⟨raw, ho, ha⟩ := acceptedAt_backend_true hacc
      have e := gen_code_step_accept o 0 (10, 2000) [(20, 2500), (5, 3000)]
        raw ho ha
      simp [generate_code_run, attempt_schedule, e, extractedAt_backend, ho]
    · obtain ⟨raw, ho, ha⟩ := acceptedAt_backend_true hacc
      have e0 := gen_code_step_continue o 0 (10, 2000) [(20, 2500), (5, 3000)]
        (hprev 0 (by omega)) (by decide)
      have e1 := gen_code_step_accept o 1 (20, 2500) [(5, 3000)] raw ho ha
      simp [generate_code_run, attempt_schedule, e0, e1, extractedAt_backend,
        ho]
    · obtain ⟨raw, ho, ha⟩ := acceptedAt_backend_true hacc
      have e0 := gen_code_step_continue o 0 (10, 2000) [(20, 2500), (5, 3000)]
        (hprev 0 (by omega)) (by decide)
      have e1 := gen_code_step_continue o 1 (20, 2500) [(5, 3000)]
        (hprev 1 (by omega)) (by decide)
      have e2 := gen_code_step_accept o 2 (5, 3000) [] raw ho ha
      simp [generate_code_run, attempt_schedule, e0, e1, e2,
        extractedAt_backend, ho]
  · intro i hi hprev hacc
    interval_cases i
    · obtain ⟨raw, ho, ha⟩ := acceptedAt_ui_true hacc
      have e := gen_ui_step_accept o 0 (10, 2000) [(20, 2500), (5, 3000)]
        raw ho ha
      simp [generate_ui_run, attempt_schedule, e, extractedAt_ui, ho]
    · obtain ⟨raw, ho, ha⟩ := acceptedAt_ui_true hacc
      have e0 := gen_ui_step_continue o 0 (10, 2000) [(20, 2500), (5, 3000)]
        (hprev 0 (by omega)) (by decide)
      have e1 := gen_ui_step_accept o 1 (20, 2500) [(5, 3000)] raw ho ha
      simp [generate_ui_run, attempt_schedule, e0, e1, extractedAt_ui, ho]
    · obtain ⟨raw, ho, ha⟩ := acceptedAt_ui_true hacc
      have e0 := gen_ui_step_continue o 0 (10, 2000) [(20, 2500), (5, 3000)]
        (hprev 0 (by omega)) (by decide)
      have e1 := gen_ui_step_continue o 1 (20, 2500) [(5, 3000)]
        (hprev 1 (by omega)) (by decide)
      have e2 := gen_ui_step_accept o 2 (5, 3000) [] raw ho ha
      simp [generate_ui_run, attempt_schedule, e0, e1, e2, extractedAt_ui, ho]

/-- C8: an attempt is accepted by a Generation Worker's acceptance
heuristic exactly when its call returned a response whose
delimiter-extracted text is longer than 100 characters and contains the
module-import marker "import" together with, for the backend worker, the
function-definition marker "def", or, for the UI worker, a
component-definition marker ("function" or "const"). -/
theorem C8_acceptance_heuristic_characterization (o : Nat → Resp) (i : Nat) :
    (acceptedAt_backend o i = true ↔
      ∃ raw, o i = Resp.ok raw ∧ 100 < (fmtB raw).data.length
        ∧ strContains (fmtB raw) "import" = true
        ∧ strContains (fmtB raw) "def" = true)
    ∧ (acceptedAt_ui o i = true ↔
      ∃ raw, o i = Resp.ok raw ∧ 100 < (fmtU raw).data.length
        ∧ strContains (fmtU raw) "import" = true
        ∧ (strContains (fmtU raw) "function" = true
            ∨ strContains (fmtU raw) "const" = true)) := by
  constructor
  · cases ho : o i with
    | ok raw =>
      simp [acceptedAt_backend, ho, accept_backend, Bool.and_eq_true,
        decide_eq_true_iff, and_assoc]
    | httpErr st => simp [acceptedAt_backend, ho]
    | exn m => simp [acceptedAt_backend, ho]
  · cases ho : o i with
    | ok raw =>
      simp [acceptedAt_ui, ho, accept_ui, Bool.and_eq_true, Bool.or_eq_true,
        decide_eq_true_iff, and_assoc]
    | httpErr st => simp [acceptedAt_ui, ho]
    | exn m => simp [acceptedAt_ui, ho]

/-- C4 counterexample: the backend worker's first two attempts raise a
transport error, the third returns 200 with a short text; the worker
returns that text as an Incomplete (best-effort) result although attempts
did raise transport errors, so Incomplete is not returned "only when ...
no attempt raised a transport/protocol error". -/
theorem C4_counterexample_incomplete_after_transport_errors :
    (generate_code_run (fun i =>
        if i == 2 then Resp.ok "hi" else Resp.exn "connection refused")).1
      = GenResult.incomplete "hi"
    ∧ (fun i =>
        if i == 2 then Resp.ok "hi" else Resp.exn "connection refused") 0
      = Resp.exn "connection refused" := by
  exact ⟨rfl, rfl⟩

set_option maxRecDepth 4000 in
/-- C4 amended: the backend worker returns Incomplete — carrying the final
attempt's extracted text — exactly when the final (third) attempt's call
returned a 200 response whose extracted text failed the acceptance
heuristic and no earlier attempt was accepted; the earlier attempts may
have raised transport errors or failed acceptance. -/
theorem C4_amended_incomplete_characterization (o : Nat → Resp) (t : String) :
    (generate_code_run o).1 = GenResult.incomplete t ↔
      (acceptedAt_backend o 0 = false ∧ acceptedAt_backend o 1 = false ∧
        ∃ raw, o 2 = Resp.ok raw ∧ accept_backend (fmtB raw) = false
          ∧ t = fmtB raw) := by
  by_cases h0 : acceptedAt_backend o 0 = true
  · obtain ⟨raw0, ho0, ha0⟩ := acceptedAt_backend_true h0
    have e := gen_code_step_accept o 0 (10, 2000) [(20, 2500), (5, 3000)]
      raw0 ho0 ha0
    simp [generate_code_run, attempt_schedule, e, h0]
  · rw [Bool.not_eq_true] at h0
    have e0 := gen_code_step_continue o 0 (10, 2000) [(20, 2500), (5, 3000)]
      h0 (by decide)
    by_cases h1 : acceptedAt_backend o 1 = true
    · obtain ⟨raw1, ho1, ha1⟩ := acceptedAt_backend_true h1
      have e1 := gen_code_step_accept o 1 (20, 2500) [(5, 3000)] raw1 ho1 ha1
      simp [generate_code_run, attempt_schedule, e0, e1, h0, h1]
    · rw [Bool.not_eq_true] at h1
      have e1 := gen_code_step_continue o 1 (20, 2500) [(5, 3000)] h1
        (by decide)
      cases ho2 : o 2 with
      | ok raw =>
        by_cases ha2 : accept_backend (fmtB raw) = true
        · have e2 := gen_code_step_accept o 2 (5, 3000) [] raw ho2 ha2
          simp [generate_code_run, attempt_schedule, e0, e1, e2, h0, h1,
            ho2, ha2]
        · rw [Bool.not_eq_true] at ha2
          have e2 := gen_code_step_last_reject o (5, 3000) [] raw ho2 ha2
          have key : (generate_code_run o).1 = GenResult.incomplete (fmtB raw) := by
            simp only [generate_code_run, attempt_schedule, e0, e1, e2]
          rw [key, GenResult.incomplete.injEq]
          constructor
          · intro hEq
            exact ⟨h0, h1, raw, rfl, ha2, hEq.symm⟩
          · rintro ⟨-, -, raw2, hraw2, -, ht⟩
            injection hraw2 with hr
            rw [ht, hr]
      | httpErr st =>
        have e2 := gen_code_step_last_http o (5, 3000) [] st ho2
        simp [generate_code_run, attempt_schedule, e0, e1, e2, h0, h1, ho2]
      | exn m =>
        have e2 := gen_code_step_last_exn o (5, 3000) [] m ho2
        simp [generate_code_run, attempt_schedule, e0, e1, e2, h0, h1, ho2]

set_option maxRecDepth 20000 in
/-- C1 counterexample: the backend worker's completion calls raise a
transport error on all 3 attempts, so its result is
Failed("Failed to generate code: connection refused") — yet, because the
coordinator's pre-assembly check only tests the truthiness (non-emptiness)
of the returned string, the run still invokes the Project Assembler and
hands the assembled layout to the deployer (here with a UI role that
produced an accepted artifact). -/
theorem C1_counterexample_failed_backend_still_assembles :
    (generate_code_run (fun _ => Resp.exn "connection refused")).1
      = GenResult.failed "Failed to generate code: connection refused"
    ∧ (run_standalone_model [("ui", JsonVal.s "x")] ""
        (fun _ => Resp.exn "connection refused")
        (fun _ => Resp.ok sampleUiText)).integratorInvoked = true
    ∧ (run_standalone_model [("ui", JsonVal.s "x")] ""
        (fun _ => Resp.exn "connection refused")
        (fun _ => Resp.ok sampleUiText)).deployerInvoked = true := by
  exact ⟨rfl, rfl, rfl⟩

/-- C1 amended: a Failed backend result never aborts the run before
assembly, because every Failed result is carried as a non-empty error
string and the coordinator's check `if generated_code and (not needs_ui or
generated_ui)` only tests string truthiness: under a Failed backend
result, whether the Assembler is invoked depends solely on the UI side
(UI not needed, or a non-empty UI result string). -/
theorem C1_amended_failed_backend_result_does_not_abort
    (json : List (String × JsonVal)) (text : String)
    (bo uo : Nat → Resp) (r : String)
    (hf : (generate_code_run bo).1 = GenResult.failed r) :
    (run_standalone_model json text bo uo).integratorInvoked =
      (!(check_if_ui_needed_standalone json text)
        || pyTruthy (resultText (generate_ui_run uo).1)) := by
  have hr : pyTruthy r = true :=
    gen_code_go_failed_truthy bo attempt_schedule 0 r hf
  have hcode : pyTruthy (resultText (generate_code_run bo).1) = true := by
    rw [hf]; exact hr
  simp only [run_standalone_model, hcode, Bool.true_and]
  cases hn : check_if_ui_needed_standalone json text
  · simp
  · cases hu : pyTruthy (resultText (generate_ui_run uo).1) <;>
      simp [hu, Option.getD]

/-- C1 witness: the amended theorem applied at a concrete all-transport-
error backend oracle with no UI needed. -/
theorem C1_amended_witness :
    (generate_code_run (fun _ => Resp.exn "boom")).1
      = GenResult.failed "Failed to generate code: boom"
    ∧ (run_standalone_model [] "" (fun _ => Resp.exn "boom")
        (fun _ => Resp.ok sampleUiText)).integratorInvoked =
      (!(check_if_ui_needed_standalone [] "")
        || pyTruthy (resultText
            (generate_ui_run (fun _ => Resp.ok sampleUiText)).1)) :=
  ⟨rfl, C1_amended_failed_backend_result_does_not_abort [] "" _ _ _ rfl⟩

/-- C2 counterexample: for the requirements input
`{"functionalities": ["chat interface"]}` the UI-need detector reports
that a UI IS required (the keyword "interface" of its fixed vocabulary is
a substring of the value "chat interface"), contradicting the claim that
it reports no UI. -/
theorem C2_counterexample_chat_interface_triggers_ui :
    check_if_ui_needed_standalone
      [("functionalities", JsonVal.l ["chat interface"])] "" = true := by
  decide

/-- C2 amended: for the requirements input
`{"functionalities": ["chat interface"]}` the UI-need detector reports
that a UI is required — "interface" is in the UI keyword vocabulary and
occurs in the value — whatever the accompanying free text, so
requested_roles for that input is Backend and UI, not Backend only. -/
theorem C2_amended_detector_reports_ui_needed (text : String) :
    check_if_ui_needed_standalone
      [("functionalities", JsonVal.l ["chat interface"])] text = true := by
  have hv : ui_values_hit
      [("functionalities", JsonVal.l ["chat interface"])] = true := by decide
  simp [check_if_ui_needed_standalone, hv]

/-- C3 counterexample: the assembler fails on an empty UI artifact text:
`integrate_project` returns no result (None), not a minimal valid
layout. -/
theorem C3_counterexample_empty_ui_artifact_fails_assembly :
    integrate_project "import fastapi" "" = none := by
  rfl

/-- C3 amended: `integrate_project` returns a minimal valid ProjectLayout
exactly when both the backend artifact text and the UI artifact text are
non-empty; an absent or empty artifact of either role makes it return
None instead of a layout. -/
theorem C3_amended_assembler_requires_both_artifacts (b u : String) :
    (integrate_project b u).isSome = (pyTruthy b && pyTruthy u) := by
  unfold integrate_project
  cases hb : pyTruthy b <;> cases hu : pyTruthy u <;> simp [hb, hu]

/-- C9: the backend dependency manifest produced by assembly contains the
five baseline framework requirement lines unconditionally and, for each
known library name occurring case-insensitively as a substring of the
backend text, that library's pinned requirement line; and the layout the
assembler returns carries exactly these manifest lines. -/
theorem C9_backend_manifest_contents (b u : String) :
    ("fastapi>=0.100.0" ∈ backend_requirements_lines b
      ∧ "uvicorn>=0.23.0" ∈ backend_requirements_lines b
      ∧ "sqlalchemy>=2.0.0" ∈ backend_requirements_lines b
      ∧ "pydantic>=2.0.0" ∈ backend_requirements_lines b
      ∧ "python-dotenv>=1.0.0" ∈ backend_requirements_lines b)
    ∧ (strContains (pyLowerS b) "pandas" = true →
        "pandas>=2.0.0" ∈ backend_requirements_lines b)
    ∧ (strContains (pyLowerS b) "numpy" = true →
        "numpy>=1.24.0" ∈ backend_requirements_lines b)
    ∧ ((strContains (pyLowerS b) "scikit-learn" = true
        ∨ strContains (pyLowerS b) "sklearn" = true) →
        "scikit-learn>=1.3.0" ∈ backend_requirements_lines b)
    ∧ ((strContains (pyLowerS b) "matplotlib" = true
        ∨ strContains (pyLowerS b) "pyplot" = true) →
        "matplotlib>=3.7.0" ∈ backend_requirements_lines b)
    ∧ (strContains (pyLowerS b) "requests" = true →
        "requests>=2.31.0" ∈ backend_requirements_lines b)
    ∧ (∀ l : ProjectLayout, integrate_project b u = some l →
        l.backendRequirements = backend_requirements_lines b) := by
  refine ⟨⟨?_, ?_, ?_, ?_, ?_⟩, ?_, ?_, ?_, ?_, ?_, ?_⟩
  · simp [backend_requirements_lines, baseline_requirements]
  · simp [backend_requirements_lines, baseline_requirements]
  · simp [backend_requirements_lines, baseline_requirements]
  · simp [backend_requirements_lines, baseline_requirements]
  · simp [backend_requirements_lines, baseline_requirements]
  · intro h
    simp [backend_requirements_lines, baseline_requirements,
      known_lib_lines, h, List.mem_append]
  · intro h
    simp [backend_requirements_lines, baseline_requirements,
      known_lib_lines, h, List.mem_append]
  · intro h
    rcases h with h | h <;>
      simp [backend_requirements_lines, baseline_requirements,
        known_lib_lines, h, List.mem_append]
  · intro h
    rcases h with h | h <;>
      simp [backend_requirements_lines, baseline_requirements,
        known_lib_lines, h, List.mem_append]
  · intro h
    simp [backend_requirements_lines, baseline_requirements,
      known_lib_lines, h, List.mem_append]
  · intro l hl
    unfold integrate_project at hl
    split at hl
    · simp at hl
    · injection hl with h
      rw [← h]
      rfl

theorem ui_text_hit_append (text ext : String)
    (h : ui_text_hit text = true) : ui_text_hit (text ++ ext) = true := by
  unfold ui_text_hit at h ⊢
  simp only [Bool.and_eq_true] at h ⊢
  obtain ⟨ht, hk⟩ := h
  refine ⟨pyTruthy_append_left ext ht, ?_⟩
  simp only [List.any_eq_true] at hk ⊢
  obtain ⟨kw, hkw, hc⟩ := hk
  refine ⟨kw, hkw, ?_⟩
  rw [pyLowerS_append]
  exact strContains_append _ hc

/-- C10: the UI-need detector is monotone in its free-text input: whenever
it reports True on a requirements JSON and free text, it still reports
True when the free text is extended by appending characters and the JSON
is unchanged. -/
theorem C10_detector_monotone_in_free_text
    (json : List (String × JsonVal)) (text ext : String)
    (h : check_if_ui_needed_standalone json text = true) :
    check_if_ui_needed_standalone json (text ++ ext) = true := by
  unfold check_if_ui_needed_standalone at h ⊢
  simp only [Bool.or_eq_true] at h ⊢
  rcases h with (h | h) | h
  · exact Or.inl (Or.inl h)
  · exact Or.inl (Or.inr h)
  · exact Or.inr (ui_text_hit_append text ext h)

/-- C10 witness: the monotonicity theorem applied at the free text
"dashboard" extended by " page". -/
theorem C10_witness_dashboard_extension :
    check_if_ui_needed_standalone [] "dashboard" = true
    ∧ check_if_ui_needed_standalone [] ("dashboard" ++ " page") = true :=
  ⟨by decide,
    C10_detector_monotone_in_free_text [] "dashboard" " page" (by decide)⟩

/-- C5 counterexample: in a deploy call where every check passes, the
backend survives its settle period and the frontend process exits during
its own, deploy returns Failure while the backend service process started
within that same call is still running — it was not stopped before the
Failure return. -/
theorem C5_counterexample_backend_left_running_after_failure :
    isErrorResult
        (deploy_project_model envFrontendDies freshDeployerState).result
      = true
    ∧ DeployEvent.startBackend
        ∈ (deploy_project_model envFrontendDies freshDeployerState).events
    ∧ (deploy_project_model envFrontendDies freshDeployerState).state.backendProc
        = some ⟨true⟩ := by
  refine ⟨rfl, ?_, rfl⟩
  decide

/-- C5 amended: a failing step makes deploy return Failure immediately
without stopping the service processes already started in the same call:
whenever the frontend service process exits during its settle period (all
earlier checks passing and the backend surviving its own settle period),
deploy returns Failure with the backend process started in that call still
running; already-started processes are only stopped by the stop phase of a
later deploy call or by stop_all. -/
theorem C5_amended_failure_leaves_started_backend_running
    (env : DeployEnv) (st : DeployerState)
    (hpe : env.projectExists = true) (hbd : env.backendDirExists = true)
    (hfd : env.frontendDirExists = true) (hba : env.backendAppExists = true)
    (hbx : env.backendEarlyExit = false)
    (hfx : env.frontendEarlyExit = true) :
    isErrorResult (deploy_project_model env st).result = true
    ∧ DeployEvent.startBackend ∈ (deploy_project_model env st).events
    ∧ (deploy_project_model env st).state.backendProc = some ⟨true⟩ := by
  unfold deploy_project_model stop_current_services
  simp [hpe, hbd, hfd, hba, hbx, hfx, isErrorResult, List.mem_append]

/-- C5 witness: the amended theorem applied at the concrete environment
where the frontend dies during its settle period. -/
theorem C5_amended_witness :
    envFrontendDies.projectExists = true
    ∧ envFrontendDies.frontendEarlyExit = true
    ∧ isErrorResult
        (deploy_project_model envFrontendDies freshDeployerState).result
      = true
    ∧ (deploy_project_model envFrontendDies freshDeployerState).state.backendProc
        = some ⟨true⟩ :=
  ⟨rfl, rfl,
    (C5_amended_failure_leaves_started_backend_running envFrontendDies
      freshDeployerState rfl rfl rfl rfl rfl rfl).1,
    (C5_amended_failure_leaves_started_backend_running envFrontendDies
      freshDeployerState rfl rfl rfl rfl rfl rfl).2.2⟩

/-- C6 counterexample: deploy launches the Frontend service process even
when no frontend artifact exists in the layout (only the frontend
directory), and a layout containing only a backend artifact (no frontend
directory) does not deploy successfully — it returns an error. -/
theorem C6_counterexample_frontend_launch_unconditional :
    (envNoUiArtifact.frontendAppJsxExists = false
      ∧ DeployEvent.startFrontend
          ∈ (deploy_project_model envNoUiArtifact freshDeployerState).events)
    ∧ isErrorResult
        (deploy_project_model envBackendOnly freshDeployerState).result
      = true := by
  refine ⟨⟨rfl, ?_⟩, rfl⟩
  decide

/-- C6 amended: deploy requires the layout's frontend directory — without
it the call returns an error — and once the directory checks pass and the
backend survives its settle period the Frontend service process is
launched unconditionally, whether or not a frontend artifact exists in
the layout. -/
theorem C6_amended_frontend_launch_requires_directory_not_artifact
    (env : DeployEnv) (st : DeployerState) :
    (env.frontendDirExists = false →
      isErrorResult (deploy_project_model env st).result = true)
    ∧ (env.projectExists = true → env.backendDirExists = true →
        env.frontendDirExists = true → env.backendAppExists = true →
        env.backendEarlyExit = false →
        DeployEvent.startFrontend ∈ (deploy_project_model env st).events) := by
  constructor
  · intro hfd
    unfold deploy_project_model
    cases hpe : env.projectExists
    · simp [hpe, isErrorResult]
    · cases hbd : env.backendDirExists <;>
        simp [hpe, hbd, hfd, isErrorResult]
  · intro hpe hbd hfd hba hbx
    unfold deploy_project_model stop_current_services
    cases hfx : env.frontendEarlyExit <;>
      simp [hpe, hbd, hfd, hba, hbx, hfx, List.mem_append]
